import Mathlib

/-!
Shallow embedding of the MarloStandfield work-item distribution bot.

The repository has two near-identical copies of the engine:
`src/bot_core.py` (class `LineBot`) and the module-level functions of
`src/launcher.py` (the appended `marlo 3.py` section).  Both operate on a
MySQL table `number_queue` whose rows carry a payload (number, name,
address, email), an allocation state (`is_used`, `used_by_user_id`,
`used_by_username`, `used_at`), a completion flag (`is_completed`) and a
disposition (`status`, `call_summary`, `summary_submitted_at`), plus an
append-only table `no_answer_records`.

The embedding below models the `number_queue` table as a list of rows
(list order is insertion order; `id` is the AUTO_INCREMENT primary key),
each SQL statement as a pure function on that list, and each handler as
the sequence of store operations it performs.  Timestamps (`NOW()`) are
passed in as an explicit `now : Nat`.  `cursor.rowcount` for UPDATE is the
number of rows actually changed (pymysql connects without the FOUND_ROWS
client flag, so MySQL reports changed rows, not matched rows); for DELETE
it is the number of rows removed.  Chat I/O (messages, keyboards, group
notifications) is external per the specification and is not modelled.
-/

/-- One row of the `number_queue` table (see `init_database` in both
sources): payload fields, allocation fields, completion and disposition
fields.  `added_at` and `group_chat_id` are never read by the modelled
operations and are omitted. -/
structure Row where
  id : Nat
  number : String
  name : Option String := none
  address : Option String := none
  email : Option String := none
  is_used : Bool := false
  is_completed : Bool := false
  used_by_user_id : Option Nat := none
  used_by_username : Option String := none
  used_at : Option Nat := none
  status : Option String := none
  call_summary : Option String := none
  summary_submitted_at : Option Nat := none
deriving Repr, DecidableEq

/-- The `number_queue` table. -/
abbrev Queue := List Row

/-- One row of the append-only `no_answer_records` table
(`save_no_answer_record` in both sources). -/
structure NoAnswerRecord where
  user_id : Nat
  username : Option String
  agent_name : String
  reference : String
  number : String
  name : Option String := none
  address : Option String := none
  email : Option String := none
deriving Repr, DecidableEq

/-- The SQL predicate `used_by_user_id = uid AND is_used = TRUE AND
is_completed = FALSE`, used by the existence check in `get_next_number`,
by `has_active_line` in `callback_request_line`, and by
`get_user_record`. -/
def isActiveClaimOf (uid : Nat) (r : Row) : Bool :=
  r.used_by_user_id == some uid && r.is_used && !r.is_completed

/-- The SQL predicate `is_used = FALSE AND is_completed = FALSE` of the
allocator selection query. -/
def isAvailable (r : Row) : Bool :=
  !r.is_used && !r.is_completed

/-- Fold computing the first row of minimal `id` from a candidate list:
the model of `ORDER BY id LIMIT 1` (ids are the primary key). -/
def pickMinId (acc : Option Row) (l : List Row) : Option Row :=
  l.foldl
    (fun acc r =>
      match acc with
      | none => some r
      | some b => if r.id < b.id then some r else some b)
    acc

/-- `SELECT id, number, name, address, email FROM number_queue WHERE
is_used = FALSE AND is_completed = FALSE ORDER BY id LIMIT 1` (the
selection query of `get_next_number` in both sources).  The model keeps
the whole row; the source projects the payload columns of the same row. -/
def selectMinAvailable (q : Queue) : Option Row :=
  pickMinId none (q.filter isAvailable)

/-- `UPDATE number_queue SET is_used = TRUE, used_by_user_id = %s,
used_by_username = %s, used_at = NOW() WHERE id = %s` — the claiming
update of `get_next_number`.  Note: the WHERE clause tests only `id`, so
the update is unconditional on the allocation state of the row. -/
def claimRow (q : Queue) (rid uid : Nat) (uname : Option String) (now : Nat) : Queue :=
  q.map fun r =>
    if r.id == rid then
      { r with is_used := true, used_by_user_id := some uid,
               used_by_username := uname, used_at := some now }
    else r

/-- `get_next_number(user_id, username, force_new)` (launcher.py lines
367-403; LineBot.get_next_number is identical): unless `force_new`, return
None when the caller already holds an active claim; otherwise select the
lowest-id available row, claim it, and return its pre-update payload.
Returns the (optional) selected row together with the updated queue. -/
def get_next_number (q : Queue) (uid : Nat) (uname : Option String)
    (force_new : Bool) (now : Nat) : Option Row × Queue :=
  if !force_new && q.any (isActiveClaimOf uid) then (none, q)
  else
    match selectMinAvailable q with
    | none => (none, q)
    | some r => (some r, claimRow q r.id uid uname now)

/-- `update_record_status(user_id, status)`: `UPDATE number_queue SET
status = %s WHERE used_by_user_id = %s`.  The WHERE clause has no
`is_used`/`is_completed` guard, so every row ever claimed by the user and
still present is updated, completed rows included. -/
def update_record_status (q : Queue) (uid : Nat) (st : String) : Queue :=
  q.map fun r =>
    if r.used_by_user_id == some uid then { r with status := some st } else r

/-- `update_record_summary(user_id, summary)`: `UPDATE number_queue SET
call_summary = %s, summary_submitted_at = NOW() WHERE used_by_user_id =
%s` (again unguarded by completion). -/
def update_record_summary (q : Queue) (uid : Nat) (summary : String) (now : Nat) : Queue :=
  q.map fun r =>
    if r.used_by_user_id == some uid then
      { r with call_summary := some summary, summary_submitted_at := some now }
    else r

/-- `mark_line_completed(user_id)`: `UPDATE number_queue SET is_completed
= TRUE WHERE used_by_user_id = %s AND is_used = TRUE`.  The companion
DELETE on `number_requests` touches a different table and is outside the
modelled state. -/
def mark_line_completed (q : Queue) (uid : Nat) : Queue :=
  q.map fun r =>
    if r.used_by_user_id == some uid && r.is_used then
      { r with is_completed := true }
    else r

/-- Lexicographic recency key for `ORDER BY used_at DESC, id DESC`:
MySQL sorts NULL `used_at` last under DESC, modelled by `getD 0`. -/
def moreRecent (a b : Row) : Bool :=
  Nat.blt (b.used_at.getD 0) (a.used_at.getD 0) ||
    (b.used_at.getD 0 == a.used_at.getD 0 && Nat.blt b.id a.id)

/-- `get_user_record(user_id)`: `SELECT * FROM number_queue WHERE
used_by_user_id = %s AND is_used = TRUE AND is_completed = FALSE ORDER BY
used_at DESC, id DESC LIMIT 1`. -/
def get_user_record (q : Queue) (uid : Nat) : Option Row :=
  (q.filter (isActiveClaimOf uid)).foldl
    (fun acc r =>
      match acc with
      | none => some r
      | some b => if moreRecent r b then some r else some b)
    none

/-- `save_no_answer_record(...)`: an INSERT into `no_answer_records`. -/
def save_no_answer_record (arch : List NoAnswerRecord) (rec : NoAnswerRecord) :
    List NoAnswerRecord :=
  arch ++ [rec]

/-- The row transform of the SET list in `LineBot.reset_queue`: all seven
cleared columns put to their cleared value. -/
def resetRowCore (r : Row) : Row :=
  { r with is_used := false, used_by_user_id := none, used_by_username := none,
           used_at := none, status := none, call_summary := none,
           summary_submitted_at := none }

/-- `LineBot.reset_queue` (bot_core.py lines 380-396): clear `is_used`,
`used_by_user_id`, `used_by_username`, `used_at`, `status`,
`call_summary` and `summary_submitted_at` on every row with
`is_completed = FALSE`; return `cursor.rowcount` (rows changed). -/
def reset_queue_core (q : Queue) : Queue × Nat :=
  (q.map fun r => if !r.is_completed then resetRowCore r else r,
   (q.filter fun r => !r.is_completed && resetRowCore r != r).length)

/-- The row update of the launcher copy of `reset_queue`: identical to
`resetRowCore` except that `summary_submitted_at` is NOT in its SET
list. -/
def resetRowLauncher (r : Row) : Row :=
  { r with is_used := false, used_by_user_id := none, used_by_username := none,
           used_at := none, status := none, call_summary := none }

/-- Module-level `reset_queue` (launcher.py lines 507-521): same WHERE
clause as the LineBot copy but its SET list omits
`summary_submitted_at`. -/
def reset_queue_launcher (q : Queue) : Queue × Nat :=
  (q.map fun r => if !r.is_completed then resetRowLauncher r else r,
   (q.filter fun r => !r.is_completed && resetRowLauncher r != r).length)

/-- `export_used_numbers` (bot_core.py lines 443-475; launcher.py copy is
the same logic): SELECT the rows with `is_completed = TRUE` (ordered by
`used_at` for presentation; the order does not affect the properties
proved here and row order is kept as table order), return `(None, 0)` and
leave the table untouched when nothing matches, otherwise DELETE the
matching rows and return the records with `cursor.rowcount` of the
DELETE.  The CSV serialisation of the returned records is formatting and
is not modelled.  Result: (exported records, purged count, new queue). -/
def export_used_numbers (q : Queue) : Option (List Row) × Nat × Queue :=
  let results := q.filter fun r => r.is_completed
  if results.isEmpty then (none, 0, q)
  else (some results, results.length, q.filter fun r => !r.is_completed)

/-- `export_unused_numbers` (bot_core.py lines 477-500): SELECT rows with
`is_used = FALSE AND is_completed = FALSE` ordered by id; no DELETE is
performed and the returned count is 0.  Result: (exported records,
count, queue — always unchanged). -/
def export_unused_numbers (q : Queue) : Option (List Row) × Nat × Queue :=
  let results := q.filter isAvailable
  if results.isEmpty then (none, 0, q)
  else (some results, 0, q)

/-- The persistent store the disposition handlers touch: `number_queue`
plus the `no_answer_records` archive. -/
structure World where
  queue : Queue
  archive : List NoAnswerRecord
deriving Repr, DecidableEq

/-- The ephemeral per-operator FSM state (aiogram `UserStates` plus the
stored `state.update_data` payload).  `awaitingSummary` carries the
`need_pass` flag stored by `callback_need_pass`; the other awaiting
states carry the `user_id` stored when the state was set. -/
inductive SessionState where
  | idle
  | awaitingSummary (uid : Nat) (need_pass : Bool)
  | awaitingCallbackSummary (uid : Nat)
  | awaitingFinishingSummary (uid : Nat)
  | awaitingCallEndedSummary (uid : Nat)
deriving Repr, DecidableEq

/-- The cancel test of every summary handler, `message.text.startswith`
applied to the cancel command: a character-level prefix test on the
message text. -/
def isCancelText (t : String) : Bool :=
  "/cancel".data.isPrefixOf t.data

/-- `callback_otp` (bot_core.py lines 1005-1016; launcher.py lines
1799-1881): reject when the presser is not the addressed user, otherwise
run `update_record_status(user_id, "OTP")`.  The subsequent reads and
notifications do not mutate the store. -/
def callback_otp (q : Queue) (sender target : Nat) : Queue :=
  if sender != target then q
  else update_record_status q target "OTP"

/-- `callback_noanswer` of bot_core.py (lines 1113-1171): status update,
then read the active record, then (if present) insert the no-answer
snapshot, then `mark_line_completed`. -/
def callback_noanswer_core (w : World) (uid : Nat) (uname : Option String)
    (agent ref : String) : World :=
  let q1 := update_record_status w.queue uid "No Answer"
  let arch :=
    match get_user_record q1 uid with
    | some r =>
        save_no_answer_record w.archive
          { user_id := uid, username := uname, agent_name := agent,
            reference := ref, number := r.number, name := r.name,
            address := r.address, email := r.email }
    | none => w.archive
  { queue := mark_line_completed q1 uid, archive := arch }

/-- `callback_noanswer` of launcher.py (lines 2199-2251): status update,
then `mark_line_completed` ("STEP 2: CRITICAL - Mark line as completed
IMMEDIATELY"), and only after that the read of the active record and the
conditional archive insert. -/
def callback_noanswer_launcher (w : World) (uid : Nat) (uname : Option String)
    (agent ref : String) : World :=
  let q1 := update_record_status w.queue uid "No Answer"
  let q2 := mark_line_completed q1 uid
  let arch :=
    match get_user_record q2 uid with
    | some r =>
        save_no_answer_record w.archive
          { user_id := uid, username := uname, agent_name := agent,
            reference := ref, number := r.number, name := r.name,
            address := r.address, email := r.email }
    | none => w.archive
  { queue := q2, archive := arch }

/-- `receive_finishing_summary` (launcher.py lines 1997-2036): on
`/cancel`, clear the FSM state and return WITHOUT touching the store; on
any other text, `mark_line_completed` (the summary text itself is only
forwarded to the group chat and never saved), then clear the state. -/
def receive_finishing_summary (q : Queue) (uid : Nat) (text : String) :
    Queue × SessionState :=
  if isCancelText text then (q, .idle)
  else (mark_line_completed q uid, .idle)

/-- `receive_call_ended_summary` (launcher.py lines 1916-1957): on
`/cancel`, clear the state and still run `mark_line_completed`; on any
other text, `mark_line_completed` (the summary is only forwarded to the
group and never saved), then clear the state. -/
def receive_call_ended_summary (q : Queue) (uid : Nat) (text : String) :
    Queue × SessionState :=
  if isCancelText text then (mark_line_completed q uid, .idle)
  else (mark_line_completed q uid, .idle)

/-- `receive_callback_summary` (launcher.py lines 2073-2113): same store
effects as the call-ended handler — both branches `mark_line_completed`,
neither saves the summary text. -/
def receive_callback_summary (q : Queue) (uid : Nat) (text : String) :
    Queue × SessionState :=
  if isCancelText text then (mark_line_completed q uid, .idle)
  else (mark_line_completed q uid, .idle)

/-- `receive_summary` (launcher.py lines 2274-2326, the need-pass /
generic summary flow): both the `/cancel` branch and the normal branch
run `update_record_summary(user_id, message.text)` followed by
`mark_line_completed` (the cancel branch stores the literal cancel text
as the summary), then clear the state. -/
def receive_summary (q : Queue) (uid : Nat) (text : String) (now : Nat) :
    Queue × SessionState :=
  if isCancelText text then
    (mark_line_completed (update_record_summary q uid text now) uid, .idle)
  else
    (mark_line_completed (update_record_summary q uid text now) uid, .idle)

/-- The aiogram routing of a plain text message from an operator: each
summary handler is registered under a `UserStates` filter
(`@router.message(UserStates.waiting_for_..., F.text)`), so it fires only
when the FSM state of the sender matches; a text arriving with no pending
state matches no store-mutating handler and the store is untouched. -/
def dispatch_text (q : Queue) (s : SessionState) (text : String) (now : Nat) :
    Queue × SessionState :=
  match s with
  | .awaitingSummary uid _ => receive_summary q uid text now
  | .awaitingCallbackSummary uid => receive_callback_summary q uid text
  | .awaitingFinishingSummary uid => receive_finishing_summary q uid text
  | .awaitingCallEndedSummary uid => receive_call_ended_summary q uid text
  | .idle => (q, s)

/-- Allocation outcome as communicated by `callback_request_line`:
ConflictingClaim ("You already have an active line"), ResourceExhausted
("No numbers available in queue right now"), or the assigned record. -/
inductive AllocOutcome where
  | assigned (r : Row)
  | alreadyActive
  | noneAvailable
deriving Repr, DecidableEq

/-- `callback_request_line` (bot_core.py lines 744-841; launcher.py lines
1521-1654), store-relevant part: `has_active_line` check (the SQL of
`isActiveClaimOf`) reporting the already-active rejection, then
`get_next_number(user_id, username, False)`, whose None result is
reported as no-lines-available. -/
def callback_request_line (q : Queue) (uid : Nat) (uname : Option String)
    (now : Nat) : AllocOutcome × Queue :=
  if q.any (isActiveClaimOf uid) then (.alreadyActive, q)
  else
    match get_next_number q uid uname false now with
    | (none, q2) => (.noneAvailable, q2)
    | (some r, q2) => (.assigned r, q2)

/-!
Interleaved execution of `get_next_number`.

The claim about concurrent allocation concerns two sessions (or worker
processes) running `get_next_number` against the same MySQL store.  Each
`cursor.execute` is one atomic statement against the store, but nothing
makes the three statements of one call atomic together: the two SELECTs
are non-locking consistent reads (no FOR UPDATE), and the claiming UPDATE
matches on `id` alone, so it succeeds regardless of the allocation state
the row has reached in the meantime.  The machine below therefore runs
each call as three atomic micro-steps — the existence-check SELECT, the
min-id SELECT, and the claiming UPDATE — and a schedule picks which
pending call performs its next statement.
-/

/-- Program counter of one in-flight `get_next_number` call: before the
existence check, before the selection query, before the claiming UPDATE
(holding the row the SELECT returned), or returned (holding the result
handed back to the caller). -/
inductive ThreadPC where
  | atCheck
  | atSelect
  | atUpdate (chosen : Row)
  | returned (result : Option Row)
deriving Repr, DecidableEq

/-- One in-flight `get_next_number(uid, uname)` call (`force_new` is
False on the allocation paths). -/
structure Thread where
  uid : Nat
  uname : Option String
  pc : ThreadPC
deriving Repr, DecidableEq

/-- Execute the next single SQL statement of one call, following the
statement sequence of `get_next_number`. -/
def stepThread (q : Queue) (t : Thread) (now : Nat) : Queue × Thread :=
  match t.pc with
  | .atCheck =>
      if q.any (isActiveClaimOf t.uid) then (q, { t with pc := .returned none })
      else (q, { t with pc := .atSelect })
  | .atSelect =>
      match selectMinAvailable q with
      | none => (q, { t with pc := .returned none })
      | some r => (q, { t with pc := .atUpdate r })
  | .atUpdate r =>
      (claimRow q r.id t.uid t.uname now, { t with pc := .returned (some r) })
  | .returned _ => (q, t)

/-- Run a schedule: each entry is the index of the call that performs its
next statement.  Out-of-range indices and already-returned calls leave
the state unchanged. -/
def runSched (q : Queue) (ts : List Thread) (sched : List Nat) (now : Nat) :
    Queue × List Thread :=
  sched.foldl
    (fun st i =>
      match st.2[i]? with
      | none => st
      | some t =>
          let qt := stepThread st.1 t now
          (qt.1, st.2.set i qt.2))
    (q, ts)

/-- The value a finished call returned to its caller, if it has
returned. -/
def threadResult (t : Thread) : Option Row :=
  match t.pc with
  | .returned r => r
  | _ => none

/-- A fresh `get_next_number` call by the given operator. -/
def allocCall (uid : Nat) (uname : String) : Thread :=
  { uid := uid, uname := some uname, pc := .atCheck }

/-- Concrete fixtures used by the scenario and witness theorems. -/
def row111 : Row :=
  { id := 1, number := "111" }

/-- Second unclaimed sample row. -/
def row222 : Row :=
  { id := 2, number := "222" }

/-- A row actively claimed by operator 1 (used, not completed). -/
def rowClaimed1 : Row :=
  { id := 1, number := "111", is_used := true, used_by_user_id := some 1,
    used_by_username := some "X", used_at := some 5, status := some "OTP" }

/-- A completed row still recording operator 1 as its claimer. -/
def rowCompleted1 : Row :=
  { id := 1, number := "111", is_used := true, is_completed := true,
    used_by_user_id := some 1, used_by_username := some "X",
    used_at := some 5, status := some "Finishing" }

/-- An unclaimed, non-completed row whose only set disposition column is
the summary timestamp. -/
def rowSummaryOnly : Row :=
  { id := 1, number := "111", summary_submitted_at := some 5 }

/-- A store in which operator 1 holds one active claim and the no-answer
archive is empty. -/
def worldClaimed : World :=
  { queue := [rowClaimed1], archive := [] }

/-- What the finishing / callback / call-ended summary handlers actually
do to the store on a non-cancel text: clear the session, leave every
summary column untouched, and complete the active claim of the
operator. -/
def completesWithoutSaving (q : Queue) (uid : Nat) (p : Queue × SessionState) : Prop :=
  p.2 = SessionState.idle ∧
  p.1.map Row.call_summary = q.map Row.call_summary ∧
  p.1.map Row.summary_submitted_at = q.map Row.summary_submitted_at ∧
  ∀ r ∈ q, isActiveClaimOf uid r = true →
    { r with is_completed := true } ∈ p.1

/-- A handler outcome that clears the session and marks every active
claim of the operator completed (possibly with other columns of the row
also updated). -/
def cancelReleasesClaim (q : Queue) (uid : Nat) (p : Queue × SessionState) : Prop :=
  p.2 = SessionState.idle ∧
  ∀ r ∈ q, isActiveClaimOf uid r = true →
    ∃ r2 ∈ p.1, r2.id = r.id ∧ r2.is_completed = true

/-! Helper lemmas about the selection fold and the row updates. -/

theorem pickMinId_some_cons (b x : Row) (l : List Row) :
    pickMinId (some b) (x :: l) =
      pickMinId (if x.id < b.id then some x else some b) l := rfl

theorem pickMinId_none_cons (x : Row) (l : List Row) :
    pickMinId none (x :: l) = pickMinId (some x) l := rfl

theorem pickMinId_spec (l : List Row) (b : Row) :
    ∃ r, pickMinId (some b) l = some r ∧ (r = b ∨ r ∈ l) ∧ r.id ≤ b.id ∧
      ∀ x ∈ l, r.id ≤ x.id := by
  induction l generalizing b with
  | nil => exact ⟨b, rfl, Or.inl rfl, le_refl _, by simp⟩
  | cons x l ih =>
      rw [pickMinId_some_cons]
      by_cases hx : x.id < b.id
      · obtain ⟨r, hr, hmem, hle, hall⟩ := ih x
        rw [if_pos hx] at *
        refine ⟨r, hr, ?_, ?_, ?_⟩
        · rcases hmem with h1 | h1
          · exact Or.inr (h1 ▸ List.mem_cons_self x l)
          · exact Or.inr (List.mem_cons_of_mem x h1)
        · exact le_of_lt (lt_of_le_of_lt hle hx)
        · intro y hy
          rcases List.mem_cons.mp hy with h1 | h1
          · exact h1 ▸ hle
          · exact hall y h1
      · obtain ⟨r, hr, hmem, hle, hall⟩ := ih b
        rw [if_neg hx] at *
        refine ⟨r, hr, ?_, hle, ?_⟩
        · rcases hmem with h1 | h1
          · exact Or.inl h1
          · exact Or.inr (List.mem_cons_of_mem x h1)
        · intro y hy
          rcases List.mem_cons.mp hy with h1 | h1
          · exact h1 ▸ le_trans hle (le_of_not_lt hx)
          · exact hall y h1

theorem selectMinAvailable_spec (q : Queue) (h : q.filter isAvailable ≠ []) :
    ∃ r, selectMinAvailable q = some r ∧ r ∈ q ∧ isAvailable r = true ∧
      ∀ x ∈ q, isAvailable x = true → r.id ≤ x.id := by
  unfold selectMinAvailable
  cases hf : q.filter isAvailable with
  | nil => exact absurd hf h
  | cons a l =>
      rw [pickMinId_none_cons]
      obtain ⟨r, hr, hmem, hle, hall⟩ := pickMinId_spec l a
      have hrf : r ∈ q.filter isAvailable := by
        rw [hf]
        rcases hmem with h1 | h1
        · exact h1 ▸ List.mem_cons_self a l
        · exact List.mem_cons_of_mem a h1
      refine ⟨r, hr, (List.mem_filter.mp hrf).1, (List.mem_filter.mp hrf).2, ?_⟩
      intro x hx hav
      have hxf : x ∈ q.filter isAvailable := List.mem_filter.mpr ⟨hx, hav⟩
      rw [hf] at hxf
      rcases List.mem_cons.mp hxf with h1 | h1
      · exact h1 ▸ hle
      · exact hall x h1

theorem selectMinAvailable_eq_none (q : Queue) :
    selectMinAvailable q = none ↔ q.filter isAvailable = [] := by
  constructor
  · intro h
    by_contra hne
    obtain ⟨r, hr, -⟩ := selectMinAvailable_spec q hne
    rw [h] at hr
    cases hr
  · intro h
    unfold selectMinAvailable
    rw [h]
    rfl

/-- Claim C3: in every store state holding at least one unclaimed,
non-completed item, an Allocate call by a caller with no active claim
returns the unclaimed, non-completed item of lowest sequence id; and
after inserting items A, B, C into an empty queue, three successive
successful Allocate calls return A, then B, then C. -/
theorem claim_C3_fifo :
    (∀ (q : Queue) (uid : Nat) (uname : Option String) (now : Nat),
       q.any (isActiveClaimOf uid) = false →
       q.filter isAvailable ≠ [] →
       ∃ r, (get_next_number q uid uname false now).1 = some r ∧
         r ∈ q ∧ r.is_used = false ∧ r.is_completed = false ∧
         ∀ x ∈ q, x.is_used = false → x.is_completed = false → r.id ≤ x.id) ∧
    (let q0 : Queue := [{ id := 1, number := "A" }, { id := 2, number := "B" },
                        { id := 3, number := "C" }]
     let s1 := get_next_number q0 10 (some "X") false 100
     let s2 := get_next_number s1.2 11 (some "Y") false 101
     let s3 := get_next_number s2.2 12 (some "Z") false 102
     (s1.1.map Row.number, s2.1.map Row.number, s3.1.map Row.number) =
       (some "A", some "B", some "C")) := by
  constructor
  · intro q uid uname now hact hne
    obtain ⟨r, hr, hmem, hav, hmin⟩ := selectMinAvailable_spec q hne
    have hav2 := hav
    unfold isAvailable at hav2
    simp only [Bool.and_eq_true, Bool.not_eq_true'] at hav2
    refine ⟨r, ?_, hmem, hav2.1, hav2.2, ?_⟩
    · unfold get_next_number
      rw [hact]
      simp only [Bool.not_false, Bool.true_and, Bool.and_false, if_neg (by simp : ¬ (false = true)), hr]
    · intro x hx h1 h2
      exact hmin x hx (by unfold isAvailable; rw [h1, h2]; rfl)
  · decide

theorem mark_line_completed_cons (r : Row) (l : Queue) (uid : Nat) :
    mark_line_completed (r :: l) uid =
      (if r.used_by_user_id == some uid && r.is_used then
        { r with is_completed := true } else r) :: mark_line_completed l uid := rfl

theorem mark_map_call_summary (q : Queue) (uid : Nat) :
    (mark_line_completed q uid).map Row.call_summary = q.map Row.call_summary := by
  induction q with
  | nil => rfl
  | cons r l ih =>
      rw [mark_line_completed_cons, List.map_cons, List.map_cons, ih]
      congr 1
      split <;> rfl

theorem mark_map_summary_at (q : Queue) (uid : Nat) :
    (mark_line_completed q uid).map Row.summary_submitted_at =
      q.map Row.summary_submitted_at := by
  induction q with
  | nil => rfl
  | cons r l ih =>
      rw [mark_line_completed_cons, List.map_cons, List.map_cons, ih]
      congr 1
      split <;> rfl

theorem active_mark_cond {uid : Nat} {r : Row} (h : isActiveClaimOf uid r = true) :
    (r.used_by_user_id == some uid && r.is_used) = true := by
  unfold isActiveClaimOf at h
  simp only [Bool.and_eq_true] at h ⊢
  exact ⟨h.1.1, h.1.2⟩

theorem mark_mem_active (q : Queue) (uid : Nat) :
    ∀ r ∈ q, isActiveClaimOf uid r = true →
      { r with is_completed := true } ∈ mark_line_completed q uid := by
  intro r hr hact
  unfold mark_line_completed
  have hcond := active_mark_cond hact
  have himg := List.mem_map_of_mem
    (fun r : Row => if r.used_by_user_id == some uid && r.is_used then
      { r with is_completed := true } else r) hr
  simpa [hcond] using himg

theorem mark_completes (q : Queue) (uid : Nat) :
    completesWithoutSaving q uid (mark_line_completed q uid, SessionState.idle) :=
  ⟨rfl, mark_map_call_summary q uid, mark_map_summary_at q uid, mark_mem_active q uid⟩

theorem reset_core_cons (r : Row) (l : Queue) :
    (reset_queue_core (r :: l)).1 =
      (if !r.is_completed then resetRowCore r else r) :: (reset_queue_core l).1 := rfl

/-- Claim C4: an item with `completed = true` is never returned by the
allocator (I1), and the reset operation preserves the completion flag of
every row and leaves completed rows entirely unchanged: it clears
allocation only on non-completed rows. -/
theorem claim_C4_completed_excluded :
    (∀ (q : Queue) (uid : Nat) (uname : Option String) (f : Bool) (now : Nat) (r : Row),
       (get_next_number q uid uname f now).1 = some r → r.is_completed = false) ∧
    (∀ q : Queue,
       (reset_queue_core q).1.map Row.is_completed = q.map Row.is_completed ∧
       ∀ r ∈ q, r.is_completed = true → r ∈ (reset_queue_core q).1) := by
  constructor
  · intro q uid uname f now r h
    unfold get_next_number at h
    split at h
    · cases h
    · cases hs : selectMinAvailable q with
      | none => rw [hs] at h; cases h
      | some r2 =>
          rw [hs] at h
          simp only [Option.some.injEq] at h
          obtain ⟨r3, hr3, -, hav, -⟩ :=
            selectMinAvailable_spec q (by
              intro hnil
              rw [(selectMinAvailable_eq_none q).mpr hnil] at hs
              cases hs)
          rw [hs] at hr3
          simp only [Option.some.injEq] at hr3
          subst hr3 h
          unfold isAvailable at hav
          simp only [Bool.and_eq_true, Bool.not_eq_true'] at hav
          exact hav.2
  · intro q
    constructor
    · induction q with
      | nil => rfl
      | cons r l ih =>
          rw [reset_core_cons, List.map_cons, List.map_cons, ih]
          congr 1
          split <;> rfl
    · intro r hr hc
      have himg := List.mem_map_of_mem
        (fun r : Row => if !r.is_completed then resetRowCore r else r) hr
      simpa [hc, reset_queue_core] using himg

/-- Witness for claim C4 at concrete rows. -/
theorem claim_C4_witness :
    row111.is_completed = false ∧
    rowCompleted1 ∈ (reset_queue_core [rowCompleted1]).1 :=
  ⟨claim_C4_completed_excluded.1 [row111] 5 none false 0 row111 (by decide),
   (claim_C4_completed_excluded.2 [rowCompleted1]).2 rowCompleted1 (by decide) (by decide)⟩

/-- Claim C7: the allocation handler reports AlreadyActive exactly when
the caller holds a non-completed claimed item and, for callers with no
active claim, NoneAvailable exactly when the unclaimed non-completed set
is empty; with items 111 and 222, X gets 111, Y gets 222, a second call
by X yields the conflicting-claim outcome and a call by Z the
resource-exhausted outcome. -/
theorem claim_C7_outcomes :
    (∀ (q : Queue) (uid : Nat) (uname : Option String) (now : Nat),
       ((callback_request_line q uid uname now).1 = AllocOutcome.alreadyActive ↔
         q.any (isActiveClaimOf uid) = true) ∧
       (q.any (isActiveClaimOf uid) = false →
         ((callback_request_line q uid uname now).1 = AllocOutcome.noneAvailable ↔
           q.filter isAvailable = []))) ∧
    (let s1 := callback_request_line [row111, row222] 1 (some "X") 10
     let s2 := callback_request_line s1.2 2 (some "Y") 11
     let s3 := callback_request_line s2.2 1 (some "X") 12
     let s4 := callback_request_line s2.2 3 (some "Z") 13
     s1.1 = AllocOutcome.assigned row111 ∧ s2.1 = AllocOutcome.assigned row222 ∧
       s3.1 = AllocOutcome.alreadyActive ∧ s4.1 = AllocOutcome.noneAvailable) := by
  constructor
  · intro q uid uname now
    unfold callback_request_line
    by_cases hact : q.any (isActiveClaimOf uid) = true
    · rw [if_pos hact]
      exact ⟨⟨fun _ => hact, fun _ => rfl⟩,
             fun hf => absurd (hf ▸ hact) (by decide)⟩
    · have hact2 : q.any (isActiveClaimOf uid) = false := by
        cases h : q.any (isActiveClaimOf uid)
        · rfl
        · exact absurd h hact
      rw [if_neg hact]
      unfold get_next_number
      rw [hact2]
      simp only [Bool.not_false, Bool.true_and, if_neg (by simp : ¬ (false = true))]
      cases hs : selectMinAvailable q with
      | none =>
          exact ⟨⟨fun h => AllocOutcome.noConfusion h, fun h => absurd h (by decide)⟩,
                 fun _ => ⟨fun _ => (selectMinAvailable_eq_none q).mp hs, fun _ => rfl⟩⟩
      | some r =>
          refine ⟨⟨fun h => AllocOutcome.noConfusion h, fun h => absurd h (by decide)⟩,
                  fun _ => ⟨fun h => AllocOutcome.noConfusion h, fun hfil => ?_⟩⟩
          rw [(selectMinAvailable_eq_none q).mpr hfil] at hs
          exact Option.noConfusion hs
  · decide

/-- Witness for claim C7 on the empty store. -/
theorem claim_C7_witness :
    (callback_request_line [] 1 none 0).1 = AllocOutcome.noneAvailable :=
  ((claim_C7_outcomes.1 [] 1 none 0).2 (by decide)).mpr (by decide)

/-- Witness for claim C3 at a concrete one-item store. -/
theorem claim_C3_fifo_witness :
    ∃ r, (get_next_number [row111] 5 none false 0).1 = some r ∧
      r ∈ [row111] ∧ r.is_used = false ∧ r.is_completed = false ∧
      ∀ x ∈ [row111], x.is_used = false → x.is_completed = false → r.id ≤ x.id :=
  claim_C3_fifo.1 [row111] 5 none 0 (by decide) (by decide)

theorem export_used_eq_of_empty (q : Queue)
    (h : q.filter (fun r => r.is_completed) = []) :
    export_used_numbers q = (none, 0, q) := by
  unfold export_used_numbers
  simp [h]

theorem export_used_eq_of_nonempty (q : Queue)
    (h : q.filter (fun r => r.is_completed) ≠ []) :
    export_used_numbers q =
      (some (q.filter fun r => r.is_completed),
       (q.filter fun r => r.is_completed).length,
       q.filter fun r => !r.is_completed) := by
  unfold export_used_numbers
  simp [List.isEmpty_iff, h]

/-- Claim C8: ExportCompleted is a read-then-delete round trip — the
number of returned records equals the number of purged rows, non-completed
rows are never touched, a second export with no new completions returns
no records, and an empty match yields the distinguished (none, 0) result
with the store untouched. -/
theorem claim_C8_export_roundtrip :
    ∀ q : Queue,
      (match (export_used_numbers q).1 with
        | some l => l.length
        | none => 0) = (export_used_numbers q).2.1 ∧
      (∀ r ∈ q, r.is_completed = false → r ∈ (export_used_numbers q).2.2) ∧
      export_used_numbers (export_used_numbers q).2.2 =
        (none, 0, (export_used_numbers q).2.2) ∧
      (q.filter (fun r => r.is_completed) = [] →
        export_used_numbers q = (none, 0, q)) := by
  intro q
  by_cases hf : (q.filter fun r => r.is_completed) = []
  · have he := export_used_eq_of_empty q hf
    rw [he]
    exact ⟨rfl, fun r hr _ => hr, he, fun _ => rfl⟩
  · have he := export_used_eq_of_nonempty q hf
    rw [he]
    refine ⟨rfl, ?_, ?_, fun hc => absurd hc hf⟩
    · intro r hr hc
      exact List.mem_filter_of_mem hr (by rw [hc]; rfl)
    · have hnone : ((q.filter fun r => !r.is_completed).filter
          (fun r => r.is_completed)) = [] := by
        rw [List.filter_filter]
        apply List.filter_eq_nil_iff.mpr
        intro a _
        simp
      exact export_used_eq_of_empty _ hnone

/-- Witness for claim C8 at a concrete two-row store. -/
theorem claim_C8_witness :
    row222 ∈ (export_used_numbers [rowCompleted1, row222]).2.2 ∧
    export_used_numbers (export_used_numbers [rowCompleted1, row222]).2.2 =
      (none, 0, (export_used_numbers [rowCompleted1, row222]).2.2) :=
  ⟨(claim_C8_export_roundtrip [rowCompleted1, row222]).2.1 row222 (by decide) (by decide),
   (claim_C8_export_roundtrip [rowCompleted1, row222]).2.2.1⟩

theorem resetRow_eq_of_none {r : Row} (h : r.summary_submitted_at = none) :
    resetRowCore r = resetRowLauncher r := by
  unfold resetRowCore resetRowLauncher
  rw [h]

/-- Claim C10 (amended): the two reset copies act on the same rows and
agree on every column except `summary_submitted_at`, which only the
LineBot copy clears; on stores in which no non-completed row has a
summary timestamp the two are fully observably equivalent (same queue,
same count). -/
theorem claim_C10_amended :
    (∀ q : Queue,
       (∀ r ∈ q, r.is_completed = false → r.summary_submitted_at = none) →
       reset_queue_core q = reset_queue_launcher q) ∧
    (∀ q : Queue,
       (reset_queue_core q).1.map (fun r => { r with summary_submitted_at := none }) =
         (reset_queue_launcher q).1.map (fun r => { r with summary_submitted_at := none })) := by
  constructor
  · intro q h
    unfold reset_queue_core reset_queue_launcher
    have hrow : ∀ r ∈ q, (if !r.is_completed then resetRowCore r else r)
        = (if !r.is_completed then resetRowLauncher r else r) := by
      intro r hr
      cases hc : r.is_completed
      · rw [if_pos (by decide), if_pos (by decide),
           resetRow_eq_of_none (h r hr hc)]
      · rw [if_neg (by decide), if_neg (by decide)]
    have hcnt : (q.filter fun r => !r.is_completed && resetRowCore r != r)
        = (q.filter fun r => !r.is_completed && resetRowLauncher r != r) := by
      apply List.filter_congr
      intro r hr
      cases hc : r.is_completed
      · rw [resetRow_eq_of_none (h r hr hc)]
      · simp [hc]
    rw [List.map_congr_left hrow, hcnt]
  · intro q
    unfold reset_queue_core reset_queue_launcher
    simp only [List.map_map]
    apply List.map_congr_left
    intro r _
    simp only [Function.comp]
    cases hc : r.is_completed
    · rw [if_pos (by decide), if_pos (by decide)]
      unfold resetRowCore resetRowLauncher
      rfl
    · rw [if_neg (by decide), if_neg (by decide)]

/-- Witness for the amended claim C10 on a store satisfying its
hypothesis. -/
theorem claim_C10_witness :
    reset_queue_core [row111] = reset_queue_launcher [row111] :=
  claim_C10_amended.1 [row111] (by decide)

/-- Counterexample to claim C10 as stated: on a non-completed row whose
only set field is the summary timestamp, the LineBot reset clears it and
reports one changed row while the launcher reset leaves it at 5 and
reports zero changed rows — the two copies are not observably
equivalent. -/
theorem claim_C10_reset_cex :
    reset_queue_core [rowSummaryOnly] ≠ reset_queue_launcher [rowSummaryOnly] ∧
    (reset_queue_core [rowSummaryOnly]).1.map Row.summary_submitted_at = [none] ∧
    (reset_queue_launcher [rowSummaryOnly]).1.map Row.summary_submitted_at = [some 5] ∧
    (reset_queue_core [rowSummaryOnly]).2 = 1 ∧
    (reset_queue_launcher [rowSummaryOnly]).2 = 0 := by
  decide

theorem mark_releases (q : Queue) (uid : Nat) :
    cancelReleasesClaim q uid (mark_line_completed q uid, SessionState.idle) := by
  refine ⟨rfl, fun r hr hact => ?_⟩
  exact ⟨{ r with is_completed := true }, mark_mem_active q uid r hr hact, rfl, rfl⟩

/-- Claim C5 (amended): for an operator in an awaiting-summary state of
the finishing, callback or call-ended flow, submitting a non-cancel
summary text marks the claimed item completed and clears the
SessionState, but does NOT store the text: `call_summary` and the summary
timestamp of every row are left unchanged (the text is only forwarded to
the group chat). -/
theorem claim_C5_amended :
    ∀ (q : Queue) (uid : Nat) (text : String),
      isCancelText text = false →
      completesWithoutSaving q uid (receive_finishing_summary q uid text) ∧
      completesWithoutSaving q uid (receive_callback_summary q uid text) ∧
      completesWithoutSaving q uid (receive_call_ended_summary q uid text) := by
  intro q uid text h
  unfold receive_finishing_summary receive_callback_summary receive_call_ended_summary
  rw [h]
  simp only [if_neg (by simp : ¬ (false = true))]
  exact ⟨mark_completes q uid, mark_completes q uid, mark_completes q uid⟩

/-- Witness for the amended claim C5 at a concrete claimed row. -/
theorem claim_C5_amended_witness :
    (receive_finishing_summary [rowClaimed1] 1 "ok").2 = SessionState.idle ∧
    (receive_finishing_summary [rowClaimed1] 1 "ok").1.map Row.call_summary =
      [rowClaimed1].map Row.call_summary :=
  ⟨((claim_C5_amended [rowClaimed1] 1 "ok" (by decide)).1).1,
   ((claim_C5_amended [rowClaimed1] 1 "ok" (by decide)).1).2.1⟩

/-- Counterexample to claim C5 as stated: operator 1, in the finishing
awaiting-summary state with claimed item 111, submits the summary text
ok; the resulting row has `call_summary = none` and no summary
timestamp (the claim demands the text and a timestamp), though it is
marked completed. -/
theorem claim_C5_cex :
    (receive_finishing_summary [rowClaimed1] 1 "ok").1.map Row.call_summary = [none] ∧
    (receive_finishing_summary [rowClaimed1] 1 "ok").1.map Row.summary_submitted_at =
      [none] ∧
    (receive_finishing_summary [rowClaimed1] 1 "ok").1.map Row.is_completed = [true] := by
  decide

theorem update_summary_mem_active (q : Queue) (uid : Nat) (text : String) (now : Nat) :
    ∀ r ∈ q, isActiveClaimOf uid r = true →
      ({ r with call_summary := some text, summary_submitted_at := some now } : Row)
          ∈ update_record_summary q uid text now ∧
        isActiveClaimOf uid
          { r with call_summary := some text, summary_submitted_at := some now } = true := by
  intro r hr hact
  constructor
  · unfold update_record_summary
    have hcond : (r.used_by_user_id == some uid) = true := by
      unfold isActiveClaimOf at hact
      simp only [Bool.and_eq_true] at hact
      exact hact.1.1
    have himg := List.mem_map_of_mem
      (fun r : Row => if r.used_by_user_id == some uid then
        { r with call_summary := some text, summary_submitted_at := some now }
        else r) hr
    simpa [hcond] using himg
  · exact hact

/-- Claim C6 (amended): sending /cancel in an awaiting-summary state
clears the SessionState in all four sub-flows and still marks the
claimed item completed in the call-ended, callback and need-pass flows,
but in the finishing flow cancel performs no store mutation at all, so
the claim is NOT released there. -/
theorem claim_C6_amended :
    ∀ (q : Queue) (uid : Nat) (text : String) (now : Nat),
      isCancelText text = true →
      cancelReleasesClaim q uid (receive_call_ended_summary q uid text) ∧
      cancelReleasesClaim q uid (receive_callback_summary q uid text) ∧
      cancelReleasesClaim q uid (receive_summary q uid text now) ∧
      receive_finishing_summary q uid text = (q, SessionState.idle) := by
  intro q uid text now h
  have hce : receive_call_ended_summary q uid text =
      (mark_line_completed q uid, SessionState.idle) := by
    unfold receive_call_ended_summary
    rw [h]
    rfl
  have hcb : receive_callback_summary q uid text =
      (mark_line_completed q uid, SessionState.idle) := by
    unfold receive_callback_summary
    rw [h]
    rfl
  have hsum : receive_summary q uid text now =
      (mark_line_completed (update_record_summary q uid text now) uid,
       SessionState.idle) := by
    unfold receive_summary
    rw [h]
    rfl
  have hfin : receive_finishing_summary q uid text = (q, SessionState.idle) := by
    unfold receive_finishing_summary
    rw [h]
    rfl
  refine ⟨hce ▸ mark_releases q uid, hcb ▸ mark_releases q uid, ?_, hfin⟩
  rw [hsum]
  refine ⟨rfl, fun r hr hact => ?_⟩
  obtain ⟨hmem, hact2⟩ := update_summary_mem_active q uid text now r hr hact
  exact ⟨{ { r with call_summary := some text, summary_submitted_at := some now }
            with is_completed := true },
         mark_mem_active _ uid _ hmem hact2, rfl, rfl⟩

/-- Witness for the amended claim C6 at a concrete claimed row. -/
theorem claim_C6_amended_witness :
    ∃ r2 ∈ (receive_call_ended_summary [rowClaimed1] 1 "/cancel").1,
      r2.id = rowClaimed1.id ∧ r2.is_completed = true :=
  ((claim_C6_amended [rowClaimed1] 1 "/cancel" 0 (by decide)).1).2
    rowClaimed1 (by decide) (by decide)

/-- Counterexample to claim C6 as stated: operator 1, in the finishing
awaiting-summary state with active claimed item 111, sends /cancel; the
store is unchanged, so the item is still claimed and NOT completed —
cancel does not release the claim in the finishing flow. -/
theorem claim_C6_cex :
    (receive_finishing_summary [rowClaimed1] 1 "/cancel").1 = [rowClaimed1] ∧
    rowClaimed1.is_used = true ∧ rowClaimed1.is_completed = false := by
  decide

/-- Claim C9 (amended): a summary text arriving for an operator with no
pending SessionState matches no handler and produces no store mutation;
button-press disposition events, however, are not SessionState-gated —
an OTP press by the addressed operator overwrites `status` on every
stored row claimed by that operator (completed rows included) and leaves
rows of other operators unchanged. -/
theorem claim_C9_amended :
    (∀ (q : Queue) (text : String) (now : Nat),
       dispatch_text q SessionState.idle text now = (q, SessionState.idle)) ∧
    (∀ (q : Queue) (uid : Nat),
       (callback_otp q uid uid).map Row.status =
         q.map (fun r => if r.used_by_user_id == some uid then some "OTP"
           else r.status) ∧
       ∀ r ∈ q, (r.used_by_user_id == some uid) = false →
         r ∈ callback_otp q uid uid) := by
  constructor
  · intro q text now
    rfl
  · intro q uid
    have hself : ¬ ((uid != uid) = true) := by simp
    constructor
    · unfold callback_otp update_record_status
      rw [if_neg hself, List.map_map]
      apply List.map_congr_left
      intro r _
      cases hcond : (r.used_by_user_id == some uid) <;>
        simp [hcond, Function.comp]
    · intro r hr hcond
      unfold callback_otp update_record_status
      rw [if_neg hself]
      have himg := List.mem_map_of_mem
        (fun r : Row => if r.used_by_user_id == some uid then
          { r with status := some "OTP" } else r) hr
      simpa [hcond] using himg

/-- Witness for the amended claim C9: a row claimed by operator 1 is
untouched by an OTP press of operator 2. -/
theorem claim_C9_amended_witness :
    rowCompleted1 ∈ callback_otp [rowCompleted1] 2 2 :=
  (claim_C9_amended.2 [rowCompleted1] 2).2 rowCompleted1 (by decide) (by decide)

/-- Counterexample to claim C9 as stated: operator 1 completed item 111
with disposition Finishing and has no pending SessionState; a duplicate
OTP button press by operator 1 mutates the store, overwriting the
archived status of the completed row with OTP. -/
theorem claim_C9_stale_event_cex :
    callback_otp [rowCompleted1] 1 1 ≠ [rowCompleted1] ∧
    (callback_otp [rowCompleted1] 1 1).map Row.status = [some "OTP"] ∧
    rowCompleted1.is_completed = true ∧ rowCompleted1.status = some "Finishing" := by
  decide

/-- Claim C1: refutation by interleaving.  Running the statement
sequence of `get_next_number` for two concurrent calls against one
unclaimed item, with both selection SELECTs before either claiming
UPDATE, hands the SAME item 111 to both operators 1 and 2; and two
concurrent calls by the same operator 7 against two unclaimed items can
interleave so that operator 7 ends up holding TWO non-completed claimed
rows.  The existence check and the claim are thus not one atomic unit. -/
theorem claim_C1_race :
    ((runSched [row111] [allocCall 1 "A", allocCall 2 "B"] [0, 1, 0, 1, 0, 1] 9).2.map
        (fun t => (threadResult t).map Row.number) = [some "111", some "111"]) ∧
    ((runSched [row111, row222] [allocCall 7 "C", allocCall 7 "C"]
        [0, 1, 0, 0, 1, 1] 9).2.map
        (fun t => (threadResult t).map Row.number) = [some "111", some "222"] ∧
     (runSched [row111, row222] [allocCall 7 "C", allocCall 7 "C"]
        [0, 1, 0, 0, 1, 1] 9).1.map
        (fun r => (r.used_by_user_id, r.is_used, r.is_completed)) =
        [(some 7, true, false), (some 7, true, false)]) := by
  decide

/-- Claim C2: evaluation at the failing input.  In the launcher copy of
the No Answer handler, the item is marked completed BEFORE the record is
read; the read then filters on `is_completed = FALSE`, finds nothing, and
NO ArchivedNoAnswerRecord is produced (the archive stays empty) even
though the item ends completed.  The bot_core copy, which reads before
completing, archives exactly one record from the same state. -/
theorem claim_C2_noanswer_order :
    (callback_noanswer_launcher worldClaimed 1 (some "X") "AgentX" "LG206187").archive
        = [] ∧
    (callback_noanswer_launcher worldClaimed 1 (some "X") "AgentX" "LG206187").queue.map
        Row.is_completed = [true] ∧
    (callback_noanswer_core worldClaimed 1 (some "X") "AgentX" "LG206187").archive =
      [{ user_id := 1, username := some "X", agent_name := "AgentX",
         reference := "LG206187", number := "111" }] := by
  decide
